import Mathlib

/-!
# Verification of the SFAR RFE antibioprophylaxie pipeline

Shallow embedding of the Python sources:
* `src/extract_rfe_atb.py` — PDF-table extraction and record building
* `src/mcp_server_rfe.py`  — the MCP query layer
* `src/generate_api.py`    — the static-API projection

Python strings are modelled as `List Char`.  The Unicode primitives used by
`slugify` (`unicodedata.normalize('NFD', ·)`, `unicodedata.category(·) = 'Mn'`,
`str.lower`, `str.isalnum`) are modelled by finite tables that are faithful on
the character repertoire appearing in the repository's data (ASCII, the French
accented letters, the oe ligature and the combining marks); characters outside
the repertoire decompose to themselves, are not alphanumeric and are fixed by
lowering.
-/

set_option maxRecDepth 4000

abbrev Str := List Char

/-- Convert a Lean string literal to the `Str` model. -/
def str (s : String) : Str := s.toList

/-- The apostrophe character (U+0027), used inside modelled message texts. -/
def apoC : Char := Char.ofNat 39

def apoS : Str := [apoC]

/-! ## Unicode primitives (model of the `unicodedata` / `str` methods) -/

/-- Combining grave accent U+0300. -/
def mGrave : Char := Char.ofNat 0x300
/-- Combining acute accent U+0301. -/
def mAcute : Char := Char.ofNat 0x301
/-- Combining circumflex U+0302. -/
def mCirc : Char := Char.ofNat 0x302
/-- Combining diaeresis U+0308. -/
def mDiaer : Char := Char.ofNat 0x308
/-- Combining cedilla U+0327. -/
def mCedilla : Char := Char.ofNat 0x327

/-- Canonical (NFD) decompositions of the precomposed characters of the
repertoire.  `unicodedata.normalize('NFD', c)`; characters absent from the
table (in particular `Œ`/`œ`, which have only a *compatibility*
decomposition) are returned unchanged. -/
def nfdTable : List (Char × List Char) :=
  [('à', ['a', mGrave]), ('â', ['a', mCirc]), ('ä', ['a', mDiaer]),
   ('é', ['e', mAcute]), ('è', ['e', mGrave]), ('ê', ['e', mCirc]), ('ë', ['e', mDiaer]),
   ('î', ['i', mCirc]), ('ï', ['i', mDiaer]),
   ('ô', ['o', mCirc]), ('ö', ['o', mDiaer]),
   ('ù', ['u', mGrave]), ('û', ['u', mCirc]), ('ü', ['u', mDiaer]),
   ('ç', ['c', mCedilla]),
   ('À', ['A', mGrave]), ('Â', ['A', mCirc]), ('Ä', ['A', mDiaer]),
   ('É', ['E', mAcute]), ('È', ['E', mGrave]), ('Ê', ['E', mCirc]), ('Ë', ['E', mDiaer]),
   ('Î', ['I', mCirc]), ('Ï', ['I', mDiaer]),
   ('Ô', ['O', mCirc]), ('Ö', ['O', mDiaer]),
   ('Ù', ['U', mGrave]), ('Û', ['U', mCirc]), ('Ü', ['U', mDiaer]),
   ('Ç', ['C', mCedilla])]

/-- Per-character NFD decomposition. -/
def nfdChar (c : Char) : List Char := (nfdTable.lookup c).getD [c]

/-- `unicodedata.category c == 'Mn'` (nonspacing combining mark): the
combining diacritical marks block U+0300–U+036F covers the repertoire. -/
def pyCatMn (c : Char) : Bool := decide (0x300 ≤ c.toNat) && decide (c.toNat ≤ 0x36F)

/-- Lower-case mappings of `str.lower` on the repertoire; characters absent
from the table are already lower case (or have no lower-case form). -/
def lowerTable : List (Char × Char) :=
  [('A', 'a'), ('B', 'b'), ('C', 'c'), ('D', 'd'), ('E', 'e'), ('F', 'f'),
   ('G', 'g'), ('H', 'h'), ('I', 'i'), ('J', 'j'), ('K', 'k'), ('L', 'l'),
   ('M', 'm'), ('N', 'n'), ('O', 'o'), ('P', 'p'), ('Q', 'q'), ('R', 'r'),
   ('S', 's'), ('T', 't'), ('U', 'u'), ('V', 'v'), ('W', 'w'), ('X', 'x'),
   ('Y', 'y'), ('Z', 'z'),
   ('À', 'à'), ('Â', 'â'), ('Ä', 'ä'), ('É', 'é'), ('È', 'è'), ('Ê', 'ê'),
   ('Ë', 'ë'), ('Î', 'î'), ('Ï', 'ï'), ('Ô', 'ô'), ('Ö', 'ö'), ('Ù', 'ù'),
   ('Û', 'û'), ('Ü', 'ü'), ('Ç', 'ç'), ('Œ', 'œ')]

/-- `str.lower`, per character. -/
def pyLower (c : Char) : Char := (lowerTable.lookup c).getD c

/-- The alphanumeric characters of the repertoire (`str.isalnum`).
Combining marks are not alphanumeric; `-` is not alphanumeric. -/
def alnumChars : List Char :=
  str "0123456789abcdefghijklmnopqrstuvwxyzABCDEFGHIJKLMNOPQRSTUVWXYZ" ++
  str "àâäéèêëîïôöùûüçœÀÂÄÉÈÊËÎÏÔÖÙÛÜÇŒ"

/-- `str.isalnum`, per character. -/
def pyIsAlnum (c : Char) : Bool := alnumChars.contains c

/-- `str.lower` on whole strings. -/
def pyStrLower (s : Str) : Str := s.map pyLower

/-- Python `needle in hay` needs a prefix test first; `leadsWith n h` is
`h.startswith(n)`. -/
def leadsWith : Str → Str → Bool
  | [], _ => true
  | _ :: _, [] => false
  | a :: as, b :: bs => a == b && leadsWith as bs

/-- Python substring containment `needle in hay` on strings. -/
def hasSub (needle : Str) : Str → Bool
  | [] => needle.isEmpty
  | c :: rest => leadsWith needle (c :: rest) || hasSub needle rest

/-! ## `generate_api.py` : `slugify` -/

/-- `slugify` from `src/generate_api.py`:
NFD-decompose, drop combining marks (category `Mn`), lower-case, replace every
non-alphanumeric character by `-`, then collapse runs of `-` and trim the ends
(`'-'.join(filter(None, text.split('-')))`). -/
def slugify (s : Str) : Str :=
  List.intercalate ['-']
    ((((((s.flatMap nfdChar).filter (fun c => !pyCatMn c)).map pyLower).map
        (fun c => if pyIsAlnum c then c else '-')).splitOn '-').filter
      (fun g => !g.isEmpty))

/-! ## `extract_rfe_atb.py` -/

/-- The record dataclass `Antibioprophylaxie`. -/
structure Antibioprophylaxie where
  specialite : Str
  acte : Str
  antibiotique : Str
  posologie : Str
  alternative_allergie : Option Str
  reinjection : Option Str
  duree : Option Str
  grade : Option Str
  commentaire : Option Str := none
deriving DecidableEq, Repr

/-- Python `\s` whitespace on the ASCII repertoire. -/
def pyIsSpace (c : Char) : Bool :=
  c == ' ' || c == '\t' || c == '\n' || c == '\r' ||
  c == Char.ofNat 0x0B || c == Char.ofNat 0x0C

/-- `normalize_text`: `re.sub(r'\s+', ' ', text).strip()` — collapse every
whitespace run to a single space and trim; equivalently, join the maximal
non-whitespace runs with single spaces. -/
def normalize_text (s : Str) : Str :=
  List.intercalate [' '] ((s.splitOnP pyIsSpace).filter (fun w => !w.isEmpty))

/-- The static page-range table `specialty_pages` of `identify_specialty`
(insertion order of the Python dict). -/
def specialty_pages : List ((Int × Int) × Str) :=
  [((30, 40), str "Neurochirurgie"),
   ((41, 45), str "ORL"),
   ((46, 50), str "Ophtalmologie"),
   ((51, 55), str "Chirurgie maxillo-faciale"),
   ((56, 60), str "Chirurgie cardiaque"),
   ((61, 65), str "Chirurgie vasculaire"),
   ((66, 70), str "Chirurgie thoracique"),
   ((71, 75), str "Chirurgie plastique"),
   ((76, 80), str "Chirurgie gynécologique"),
   ((81, 85), str "Obstétrique"),
   ((86, 90), str "Chirurgie orthopédique"),
   ((91, 95), str "Traumatologie"),
   ((96, 100), str "Chirurgie digestive"),
   ((101, 105), str "Chirurgie urologique")]

/-- The scanning loop of `identify_specialty`. -/
def findSpecialty (page : Int) : List ((Int × Int) × Str) → Str
  | [] => str "Non classé"
  | ((s, e), sp) :: rest =>
    if s ≤ page ∧ page ≤ e then sp else findSpecialty page rest

/-- `identify_specialty(df, page_num)`: first interval of `specialty_pages`
containing the page (bounds inclusive), else the sentinel `"Non classé"`.
The `df` argument of the source is unused by the function body. -/
def identify_specialty (page : Int) : Str :=
  findSpecialty page specialty_pages

/-- A cleaned table handed to `parse_table_to_records`: the header row
(`cleaned[0]`, the DataFrame columns) and the data rows (`cleaned[1:]`). -/
structure RawTable where
  columns : List Str
  rows : List (List Str)
deriving DecidableEq, Repr

/-- `column_mapping` of `parse_table_to_records`. -/
def acteAliases : List Str :=
  [str "Acte", str "Intervention", str "Type de chirurgie", str "Procédure"]

def antibiotiqueAliases : List Str := [str "Antibiotique", str "ATB", str "Molécule"]

def posologieAliases : List Str := [str "Posologie", str "Dose", str "Schéma"]

def alternativeAliases : List Str :=
  [str "Alternative", str "Si allergie", str "Allergie β-lactamines"]

def reinjectionAliases : List Str :=
  [str "Réinjection", str "Ré-injection", str "Dose supplémentaire"]

def dureeAliases : List Str := [str "Durée", str "Durée totale"]

def gradeAliases : List Str := [str "Grade", str "Niveau de preuve", str "Recommandation"]

/-- `find_column` (nested in `parse_table_to_records`): for each alias in
declaration order, scan the columns in table order and return the first column
whose lowered text contains the lowered alias; `none` when nothing matches. -/
def find_column (cols : List Str) (aliases : List Str) : Option Str :=
  aliases.findSome? fun al =>
    cols.find? fun col => hasSub (pyStrLower al) (pyStrLower col)

/-- `row.get(col, "")` for a data row: cell under a named column, `""` when the
column is absent. -/
def rowGet (cols : List Str) (row : List Str) (col : Str) : Str :=
  match cols.findIdx? (· == col) with
  | some i => row.getD i (str "")
  | none => str ""

/-- The optional-field accesses `row.get(col) if col else None`. -/
def rowGetOpt (cols : List Str) (row : List Str) : Option Str → Option Str
  | some col => some (rowGet cols row col)
  | none => none

/-- Building the candidate record for one data row of the table. -/
def buildRecord (cols : List Str) (specialty : Str) (row : List Str) :
    Antibioprophylaxie :=
  let col_acte := find_column cols acteAliases
  let col_atb := find_column cols antibiotiqueAliases
  let col_poso := find_column cols posologieAliases
  let col_alt := find_column cols alternativeAliases
  let col_reinj := find_column cols reinjectionAliases
  let col_duree := find_column cols dureeAliases
  let col_grade := find_column cols gradeAliases
  { specialite := specialty
    acte := (col_acte.map (rowGet cols row)).getD (str "")
    antibiotique := (col_atb.map (rowGet cols row)).getD (str "")
    posologie := (col_poso.map (rowGet cols row)).getD (str "")
    alternative_allergie := rowGetOpt cols row col_alt
    reinjection := rowGetOpt cols row col_reinj
    duree := rowGetOpt cols row col_duree
    grade := rowGetOpt cols row col_grade }

/-- `parse_table_to_records(df, specialty)`: build a candidate record per data
row and keep only those with a truthy (non-empty) `acte` and `antibiotique`
(`if record.acte and record.antibiotique`). -/
def parse_table_to_records (t : RawTable) (specialty : Str) :
    List Antibioprophylaxie :=
  (t.rows.map (buildRecord t.columns specialty)).filter
    (fun r => !r.acte.isEmpty && !r.antibiotique.isEmpty)

/-- A cleaned table annotated with its originating page (`df['_page']`). -/
structure PagedTable where
  page : Int
  table : RawTable
deriving DecidableEq, Repr

/-- The record-aggregation loop of `extract_rfe_data`: classify each table by
its page, parse it, and concatenate the results in table order. -/
def extract_records (tables : List PagedTable) : List Antibioprophylaxie :=
  tables.flatMap fun t => parse_table_to_records t.table (identify_specialty t.page)

/-! ## `mcp_server_rfe.py` -/

/-- The general-advisory payloads (`recommandations_generales` values): a
timing entry, the reinjection interval table and a duration entry, each with a
grade, as in the built-in default of `get_recommandations_generales`. -/
structure RecoEntry where
  description : Str
  grade : Str
deriving DecidableEq, Repr

structure RecoReinjection where
  intervalles : List (Str × Str)
  grade : Str
deriving DecidableEq, Repr

structure RecoGenerales where
  timing : RecoEntry
  reinjection : RecoReinjection
  duree : RecoEntry
deriving DecidableEq, Repr

/-- The persisted dataset JSON object: `metadata.specialites` (`[]` for the
empty/absent metadata of the recovery value `{"metadata": {}, "data": []}`),
the record list `data`, and the optional embedded `recommandations_generales`
(`none` for absent or empty). -/
structure RfeData where
  specialites : List Str
  data : List Antibioprophylaxie
  recommandations_generales : Option RecoGenerales
deriving DecidableEq, Repr

/-- The empty dataset `{"metadata": {}, "data": []}` substituted by
`load_rfe_data` when the persisted file is missing. -/
def emptyRfeData : RfeData := { specialites := [], data := [], recommandations_generales := none }

/-- State of the persisted file `rfe_antibioprophylaxie.json`: missing,
present but not valid JSON, or present with a parsed dataset. -/
inductive FileState where
  | missing
  | corrupt
  | valid (d : RfeData)

/-- The error raised by `json.load` on an unparsable file
(`json.JSONDecodeError`). -/
inductive LoadError where
  | jsonDecodeError
deriving DecidableEq, Repr

/-- `load_rfe_data()`: a missing file is recovered to the empty dataset
(`if not RFE_DATA_PATH.exists(): return {"metadata": {}, "data": []}`); an
existing file is handed to `json.load`, which raises on corrupt content. -/
def load_rfe_data : FileState → Except LoadError RfeData
  | .missing => .ok emptyRfeData
  | .corrupt => .error .jsonDecodeError
  | .valid d => .ok d

/-- Response of a query tool: either the matched payload (which the source
then formats into markdown text, in list order) or the explicit no-result
guidance text. -/
inductive QueryResponse (α : Type) where
  | results (rs : α)
  | noResult (msg : Str)
deriving DecidableEq, Repr

/-- The guidance text of the empty search result
(`f"Aucune recommandation trouvée pour '{acte}'. Vérifiez ..."`). -/
def searchNoResultMsg (acte : Str) : Str :=
  str "Aucune recommandation trouvée pour " ++ apoS ++ acte ++ apoS ++
  str ". Vérifiez l" ++ apoS ++ str "orthographe ou consultez la liste des actes avec " ++
  apoS ++ str "lister_actes_specialite" ++ apoS ++ str "."

/-- The record filter of `rechercher_antibioprophylaxie`: the optional
specialty restriction (skipped when `specialite` is `None` or empty, Python
truthiness of `if specialite:`) and the bidirectional fuzzy substring match on
the lowered act. -/
def searchPred (acte_lower : Str) (specialite : Option Str)
    (r : Antibioprophylaxie) : Bool :=
  (match specialite with
   | some s => s.isEmpty || hasSub (pyStrLower s) (pyStrLower r.specialite)
   | none => true) &&
  (hasSub acte_lower (pyStrLower r.acte) || hasSub (pyStrLower r.acte) acte_lower)

/-- The accumulation loop of `rechercher_antibioprophylaxie`: records kept in
dataset order. -/
def searchMatches (data : List Antibioprophylaxie) (acte : Str)
    (specialite : Option Str) : List Antibioprophylaxie :=
  data.filter (searchPred (pyStrLower acte) specialite)

/-- `rechercher_antibioprophylaxie(data, acte, specialite)`: the matched
records (then formatted one by one, in order) or the guidance text when no
record matches. -/
def rechercher_antibioprophylaxie (data : List Antibioprophylaxie) (acte : Str)
    (specialite : Option Str) : QueryResponse (List Antibioprophylaxie) :=
  let resultats := searchMatches data acte specialite
  if resultats.isEmpty then .noResult (searchNoResultMsg acte) else .results resultats

/-- The `call_tool` dispatch for `rechercher_antibioprophylaxie`
(lines 112–117): `arguments.get("acte", "")` defaults a missing act to the
empty string and `arguments.get("specialite")` defaults to `None`. -/
def call_tool_rechercher (data : List Antibioprophylaxie)
    (acteArg : Option Str) (specialiteArg : Option Str) :
    QueryResponse (List Antibioprophylaxie) :=
  rechercher_antibioprophylaxie data (acteArg.getD (str "")) specialiteArg

/-- Lexicographic code-point comparison of Python string `<`. -/
def strLt : Str → Str → Bool
  | [], [] => false
  | [], _ :: _ => true
  | _ :: _, [] => false
  | a :: as, b :: bs => if a < b then true else if b < a then false else strLt as bs

/-- Insertion into a sorted duplicate-free list. -/
def setInsert (x : Str) : List Str → List Str
  | [] => [x]
  | y :: ys => if strLt x y then x :: y :: ys
               else if x = y then y :: ys else y :: setInsert x ys

/-- Python `sorted(set(l))` for strings: the distinct values in ascending
code-point order. -/
def pySortedSet (l : List Str) : List Str := l.foldr setInsert []

/-- `lister_specialites(data)`: the metadata specialty list, or, when that is
empty/absent, the sorted set of the non-empty specialties of the records; the
response renders them as markdown bullet lines. -/
def lister_specialites (d : RfeData) : Str :=
  let specialites :=
    if d.specialites.isEmpty then
      pySortedSet ((d.data.filter (fun r => !r.specialite.isEmpty)).map (·.specialite))
    else d.specialites
  str "## Spécialités couvertes par les RFE Antibioprophylaxie\n\n" ++
  List.intercalate (str "\n") (specialites.map (fun s => str "- " ++ s))

/-- The guidance text of the empty `lister_actes_specialite` result. -/
def actesNoResultMsg (specialite : Str) : Str :=
  str "Aucun acte trouvé pour la spécialité " ++ apoS ++ specialite ++ apoS ++
  str ". Utilisez " ++ apoS ++ str "lister_specialites" ++ apoS ++
  str " pour voir les spécialités disponibles."

/-- `lister_actes_specialite(data, specialite)`: the acts of the records whose
specialty contains the lowered argument; the response renders
`sorted(set(actes))`, or the guidance text when no act matches. -/
def lister_actes_specialite (data : List Antibioprophylaxie) (specialite : Str) :
    QueryResponse (List Str) :=
  let actes :=
    (data.filter (fun r => hasSub (pyStrLower specialite) (pyStrLower r.specialite))).map
      (·.acte)
  if actes.isEmpty then .noResult (actesNoResultMsg specialite)
  else .results (pySortedSet actes)

/-- The built-in default advisory table of `get_recommandations_generales`
("Valeurs par défaut basées sur les RFE 2024"). -/
def defaultRecoGenerales : RecoGenerales :=
  { timing :=
      { description := str "Administration au plus tôt 60 min avant, au plus tard avant l" ++
          apoS ++ str "incision"
        grade := str "GRADE 1" }
    reinjection :=
      { intervalles :=
          [(str "céfoxitine", str "2h (1g)"),
           (str "céfuroxime", str "2h (0.75g)"),
           (str "amoxicilline/clavulanate", str "2h (1g)"),
           (str "céfazoline", str "4h (1g)"),
           (str "clindamycine", str "4h (450mg)"),
           (str "vancomycine", str "8h (10mg/kg)")]
        grade := str "GRADE 2" }
    duree :=
      { description := str "Pas de prolongation au-delà de la fin de chirurgie"
        grade := str "GRADE 1" } }

/-- The fixed output text of `get_recommandations_generales` (the `output`
triple-quoted literal of the source). -/
def recommandationsFixedText : Str :=
  str "## Recommandations générales - Antibioprophylaxie\n\n### Timing d" ++ apoS ++
  str "administration (GRADE 1)\nAdministration au plus tôt 60 min avant, au plus tard avant l" ++
  apoS ++
  str "incision chirurgicale.\n\nPour la vancomycine: début perfusion 60-30 min avant incision (durée 60 min).\n\n### Réinjection peropératoire (GRADE 2)\nRéadministrer en cas de chirurgie prolongée, toutes les 2 demi-vies:\n\n| Antibiotique | Intervalle | Dose |\n|--------------|------------|------|\n| Céfoxitine | 2h | 1g |\n| Céfuroxime | 2h | 0.75g |\n| Amoxicilline/clavulanate | 2h | 1g |\n| Céfazoline | 4h | 1g |\n| Clindamycine | 4h | 450mg |\n| Vancomycine | 8h | 10mg/kg |\n\n*Gentamicine, métronidazole, teicoplanine: pas de réinjection (demi-vie longue)*\n\n### Durée (GRADE 1)\nPas de prolongation au-delà de la fin de chirurgie (sauf exceptions spécifiques).\n"

/-- `get_recommandations_generales(data)`: the source selects the embedded
`recommandations_generales` payload when present and non-empty, else the
built-in default (`reco` below) — and then returns the fixed `output` literal,
which does not mention `reco`. -/
def get_recommandations_generales (d : RfeData) : Str :=
  let _reco := d.recommandations_generales.getD defaultRecoGenerales
  recommandationsFixedText

/-! ## `generate_api.py` : the per-specialty projection -/

/-- One entry of the `specialites.json` endpoint (name, slug, record count;
the URL fields are presentation). -/
structure SpecialiteEntry where
  nom : Str
  slug : Str
  count : Nat
deriving DecidableEq, Repr

/-- `generate_specialites_endpoint`: one entry per metadata specialty, with
the number of records of that specialty (`rec["specialite"] == specialite_name`). -/
def generate_specialites_endpoint (specialites : List Str)
    (data : List Antibioprophylaxie) : List SpecialiteEntry :=
  specialites.map fun nom =>
    { nom := nom
      slug := slugify nom
      count := (data.filter (fun rec => rec.specialite == nom)).length }

/-- One per-specialty view file `specialite/{slug}.json` (the `_links` and
file output are presentation). -/
structure SpecialiteView where
  nom : Str
  slug : Str
  recommandations : List Antibioprophylaxie
  total : Nat
deriving DecidableEq, Repr

/-- `generate_specialite_endpoints`: one view per metadata specialty, holding
exactly the records whose `specialite` equals the specialty name, plus their
count. -/
def generate_specialite_endpoints (specialites : List Str)
    (data : List Antibioprophylaxie) : List SpecialiteView :=
  specialites.map fun nom =>
    let recommandations := data.filter (fun rec => rec.specialite == nom)
    { nom := nom
      slug := slugify nom
      recommandations := recommandations
      total := recommandations.length }

/-! ## Supporting lemmas: substring matching -/

theorem leadsWith_iff (n h : Str) : leadsWith n h = true ↔ n <+: h := by
  induction n generalizing h with
  | nil => simp [leadsWith]
  | cons a as ih =>
    cases h with
    | nil => simp [leadsWith]
    | cons b bs =>
      simp only [leadsWith, Bool.and_eq_true, beq_iff_eq, ih, List.cons_prefix_cons]

theorem hasSub_iff (n h : Str) : hasSub n h = true ↔ n <:+: h := by
  induction h with
  | nil => simp [hasSub, List.isEmpty_iff]
  | cons c t ih =>
    rw [List.infix_cons_iff]
    simp only [hasSub, Bool.or_eq_true, leadsWith_iff, ih]

theorem hasSub_nil (h : Str) : hasSub [] h = true := by
  cases h <;> simp [hasSub, leadsWith]

/-! ## Supporting lemmas: `splitOn` / `intercalate` -/

theorem mem_of_mem_splitOnP {α : Type} (p : α → Bool) (xs : List α) :
    ∀ l ∈ xs.splitOnP p, ∀ x ∈ l, x ∈ xs ∧ p x = false := by
  induction xs with
  | nil =>
    intro l hl x hx
    simp [List.splitOnP_nil] at hl
    subst hl
    simp at hx
  | cons a as ih =>
    intro l hl x hx
    rw [List.splitOnP_cons] at hl
    by_cases ha : p a = true
    · rw [if_pos ha] at hl
      rcases List.mem_cons.1 hl with rfl | hl
      · simp at hx
      · have := ih l hl x hx
        exact ⟨List.mem_cons_of_mem _ this.1, this.2⟩
    · rw [if_neg ha] at hl
      obtain ⟨hd, tl, hsplit⟩ := List.exists_cons_of_ne_nil (List.splitOnP_ne_nil p as)
      rw [hsplit] at hl
      simp only [List.modifyHead] at hl
      rcases List.mem_cons.1 hl with rfl | hl
      · rcases List.mem_cons.1 hx with rfl | hx
        · exact ⟨List.mem_cons_self _ _, Bool.eq_false_iff.mpr ha⟩
        · have := ih hd (hsplit ▸ List.mem_cons_self _ _) x hx
          exact ⟨List.mem_cons_of_mem _ this.1, this.2⟩
      · have := ih l (hsplit ▸ List.mem_cons_of_mem _ hl) x hx
        exact ⟨List.mem_cons_of_mem _ this.1, this.2⟩

theorem intercalate_cons₂ {α : Type} (s : List α) (a b : List α) (t : List (List α)) :
    List.intercalate s (a :: b :: t) = a ++ s ++ List.intercalate s (b :: t) := by
  simp [List.intercalate, List.intersperse_cons_cons]

theorem mem_intercalate_single {α : Type} (sep : α) (gs : List (List α)) (x : α)
    (hx : x ∈ List.intercalate [sep] gs) : x = sep ∨ ∃ g ∈ gs, x ∈ g := by
  induction gs with
  | nil => simp [List.intercalate] at hx
  | cons a rest ih =>
    cases rest with
    | nil =>
      simp [List.intercalate] at hx
      exact Or.inr ⟨a, List.mem_cons_self _ _, hx⟩
    | cons b t =>
      rw [intercalate_cons₂] at hx
      rcases List.mem_append.1 hx with h | h
      · rcases List.mem_append.1 h with h | h
        · exact Or.inr ⟨a, List.mem_cons_self _ _, h⟩
        · simp at h
          exact Or.inl h
      · rcases ih h with h | ⟨g, hg, hxg⟩
        · exact Or.inl h
        · exact Or.inr ⟨g, List.mem_cons_of_mem _ hg, hxg⟩

theorem intercalate_roundtrip (gs : List (List Char))
    (h1 : ∀ g ∈ gs, g ≠ []) (h2 : ∀ g ∈ gs, '-' ∉ g) :
    List.intercalate ['-']
        (((List.intercalate ['-'] gs).splitOn '-').filter (fun g => !g.isEmpty)) =
      List.intercalate ['-'] gs := by
  cases gs with
  | nil => rfl
  | cons g t =>
    rw [List.splitOn_intercalate _ _ h2 (List.cons_ne_nil g t)]
    rw [List.filter_eq_self.mpr]
    intro a ha
    simp [List.isEmpty_iff]
    exact h1 a ha

/-! ## Supporting lemmas: character tables -/

/-- A character already in canonical slug form: NFD-fixed, not a combining
mark, fixed by lowering. -/
def goodChar (c : Char) : Bool :=
  (nfdChar c == [c]) && !pyCatMn c && (pyLower c == c)

theorem lookup_mem {β : Type} (tbl : List (Char × β)) {c : Char} {b : β}
    (h : tbl.lookup c = some b) : (c, b) ∈ tbl := by
  induction tbl with
  | nil => simp [List.lookup] at h
  | cons p t ih =>
    obtain ⟨k, v⟩ := p
    simp only [List.lookup] at h
    cases hck : (c == k) with
    | true =>
      rw [hck] at h
      simp only [Option.some.injEq] at h
      have : c = k := beq_iff_eq.mp hck
      subst this
      subst h
      exact List.mem_cons_self _ _
    | false =>
      rw [hck] at h
      exact List.mem_cons_of_mem _ (ih h)

theorem nfdTable_vals_good :
    ∀ p ∈ nfdTable, ∀ d ∈ p.2, pyIsAlnum (pyLower d) = false ∨ goodChar (pyLower d) = true := by
  decide

theorem lowerTable_vals_good :
    ∀ p ∈ lowerTable,
      (nfdTable.lookup p.1).isSome = true ∨ pyIsAlnum p.2 = false ∨ goodChar p.2 = true := by
  decide

theorem alnumChars_good :
    ∀ c ∈ alnumChars,
      (nfdTable.lookup c).isSome = true ∨ (lowerTable.lookup c).isSome = true ∨
        goodChar c = true := by
  decide

theorem slug_char_good (c d : Char) (hd : d ∈ nfdChar c)
    (hal : pyIsAlnum (pyLower d) = true) : goodChar (pyLower d) = true := by
  unfold nfdChar at hd
  cases hnfd : nfdTable.lookup c with
  | some l =>
    rw [hnfd] at hd
    simp only [Option.getD_some] at hd
    rcases nfdTable_vals_good _ (lookup_mem nfdTable hnfd) d hd with h | h
    · rw [hal] at h; cases h
    · exact h
  | none =>
    rw [hnfd] at hd
    simp only [Option.getD_none, List.mem_singleton] at hd
    have hd' : c = d := hd.symm
    subst hd'
    unfold pyLower at hal ⊢
    cases hlow : lowerTable.lookup c with
    | some e =>
      simp only [hlow, Option.getD_some] at hal ⊢
      rcases lowerTable_vals_good _ (lookup_mem lowerTable hlow) with h | h | h
      · rw [hnfd] at h; cases h
      · rw [hal] at h; cases h
      · exact h
    | none =>
      simp only [hlow, Option.getD_none] at hal ⊢
      have hc : c ∈ alnumChars := by
        unfold pyIsAlnum at hal
        exact List.elem_iff.mp hal
      rcases alnumChars_good c hc with h | h | h
      · rw [hnfd] at h; cases h
      · rw [hlow] at h; cases h
      · exact h

theorem slugify_chars (s : Str) :
    ∀ x ∈ slugify s, goodChar x = true ∧ (pyIsAlnum x = true ∨ x = '-') := by
  intro x hx
  unfold slugify at hx
  rcases mem_intercalate_single '-' _ x hx with rfl | ⟨g, hg, hxg⟩
  · exact ⟨by decide, Or.inr rfl⟩
  · rw [List.mem_filter] at hg
    have hg1 : g ∈ List.splitOnP (· == '-')
        ((((s.flatMap nfdChar).filter (fun c => !pyCatMn c)).map pyLower).map
          (fun c => if pyIsAlnum c then c else '-')) := hg.1
    obtain ⟨hx4, hxne⟩ := mem_of_mem_splitOnP (· == '-') _ g hg1 x hxg
    obtain ⟨y, hy, hxy⟩ := List.mem_map.1 hx4
    by_cases hal : pyIsAlnum y = true
    · rw [if_pos hal] at hxy
      subst hxy
      obtain ⟨d, hd2, hdy⟩ := List.mem_map.1 hy
      rw [List.mem_filter] at hd2
      obtain ⟨c, _, hdc⟩ := List.mem_flatMap.1 hd2.1
      subst hdy
      exact ⟨slug_char_good c d hdc hal, Or.inl hal⟩
    · rw [if_neg hal] at hxy
      rw [← hxy] at hxne
      simp at hxne

theorem flatMap_nfd_fix (l : Str) (h : ∀ x ∈ l, nfdChar x = [x]) :
    l.flatMap nfdChar = l := by
  induction l with
  | nil => rfl
  | cons a t ih =>
    rw [List.flatMap_cons, h a (List.mem_cons_self _ _),
      ih (fun x hx => h x (List.mem_cons_of_mem _ hx))]
    rfl

theorem map_fix {f : Char → Char} {l : Str} (h : ∀ x ∈ l, f x = x) : l.map f = l := by
  induction l with
  | nil => rfl
  | cons a t ih =>
    rw [List.map_cons, h a (List.mem_cons_self _ _),
      ih (fun x hx => h x (List.mem_cons_of_mem _ hx))]

theorem goodChar_spec {x : Char} (h : goodChar x = true) :
    nfdChar x = [x] ∧ pyCatMn x = false ∧ pyLower x = x := by
  unfold goodChar at h
  simp only [Bool.and_eq_true, beq_iff_eq, Bool.not_eq_true'] at h
  exact ⟨h.1.1, h.1.2, h.2⟩

theorem slugify_idempotent (s : Str) : slugify (slugify s) = slugify s := by
  have hch := slugify_chars s
  have h1 : (slugify s).flatMap nfdChar = slugify s :=
    flatMap_nfd_fix _ (fun x hx => (goodChar_spec (hch x hx).1).1)
  have h2 : (slugify s).filter (fun c => !pyCatMn c) = slugify s :=
    List.filter_eq_self.mpr (fun a ha => by
      rw [(goodChar_spec (hch a ha).1).2.1]; rfl)
  have h3 : (slugify s).map pyLower = slugify s :=
    map_fix (fun x hx => (goodChar_spec (hch x hx).1).2.2)
  have h4 : (slugify s).map (fun c => if pyIsAlnum c then c else '-') = slugify s :=
    map_fix (fun x hx => by
      rcases (hch x hx).2 with h | rfl
      · rw [if_pos h]
      · rw [if_neg (by decide)])
  conv_lhs => rw [slugify]
  rw [h1, h2, h3, h4]
  have hG1 : ∀ g ∈ (((((s.flatMap nfdChar).filter (fun c => !pyCatMn c)).map pyLower).map
      (fun c => if pyIsAlnum c then c else '-')).splitOn '-').filter (fun g => !g.isEmpty),
      g ≠ [] := by
    intro g hg
    have := (List.mem_filter.1 hg).2
    simpa [List.isEmpty_iff] using this
  have hG2 : ∀ g ∈ (((((s.flatMap nfdChar).filter (fun c => !pyCatMn c)).map pyLower).map
      (fun c => if pyIsAlnum c then c else '-')).splitOn '-').filter (fun g => !g.isEmpty),
      '-' ∉ g := by
    intro g hg hmem
    have hg1 : g ∈ List.splitOnP (· == '-')
        ((((s.flatMap nfdChar).filter (fun c => !pyCatMn c)).map pyLower).map
          (fun c => if pyIsAlnum c then c else '-')) := (List.mem_filter.1 hg).1
    have := (mem_of_mem_splitOnP (· == '-') _ g hg1 '-' hmem).2
    simp at this
  have hdef : slugify s = List.intercalate ['-']
      ((((((s.flatMap nfdChar).filter (fun c => !pyCatMn c)).map pyLower).map
          (fun c => if pyIsAlnum c then c else '-')).splitOn '-').filter
        (fun g => !g.isEmpty)) := rfl
  rw [hdef]
  exact intercalate_roundtrip _ hG1 hG2

/-! ## Supporting lemmas: partition counting -/

theorem count_filter_key {α : Type} [DecidableEq α] (key : α → Str) (c : Str)
    (data : List α) (a : α) :
    List.count a (data.filter (fun r => key r == c)) =
      if key a = c then List.count a data else 0 := by
  by_cases hk : key a = c
  · rw [if_pos hk, List.count_filter]
    simp [hk]
  · rw [if_neg hk, List.count_eq_zero]
    intro hmem
    exact hk (beq_iff_eq.mp (List.mem_filter.1 hmem).2)

theorem sum_map_ite_nodup (cats : List Str) (hnd : cats.Nodup) (k : Str) (n : Nat) :
    (cats.map (fun c => if k = c then n else 0)).sum = if k ∈ cats then n else 0 := by
  induction cats with
  | nil => simp
  | cons c t ih =>
    rw [List.map_cons, List.sum_cons, ih (List.nodup_cons.1 hnd).2]
    by_cases h : k = c
    · subst h
      have hct : k ∉ t := (List.nodup_cons.1 hnd).1
      simp [hct]
    · simp [h, List.mem_cons]

theorem flatMap_filter_perm {α : Type} [DecidableEq α] (key : α → Str) (cats : List Str)
    (data : List α) (hcov : ∀ r ∈ data, key r ∈ cats) (hnd : cats.Nodup) :
    (cats.flatMap (fun c => data.filter (fun r => key r == c))).Perm data := by
  rw [List.perm_iff_count]
  intro a
  rw [List.count_flatMap]
  have hfun : (List.count a ∘ fun c => data.filter (fun r => key r == c)) =
      (fun c => if key a = c then List.count a data else 0) :=
    funext (fun c => count_filter_key key c data a)
  rw [hfun, sum_map_ite_nodup cats hnd]
  by_cases h : a ∈ data
  · rw [if_pos (hcov a h)]
  · rw [List.count_eq_zero.mpr h]
    simp

/-! ## Supporting lemmas: `find_column` and `findSpecialty` -/

theorem find_column_eq (cols aliases : List Str) :
    find_column cols aliases =
      (List.find? (fun p => hasSub (pyStrLower p.1) (pyStrLower p.2))
          (aliases.product cols)).map Prod.snd := by
  induction aliases with
  | nil => rfl
  | cons a rest ih =>
    have hprod : (a :: rest).product cols = cols.map (Prod.mk a) ++ rest.product cols := by
      simp [List.product, List.flatMap_cons]
    rw [hprod, List.find?_append, List.find?_map]
    simp only [find_column, List.findSome?_cons]
    cases hfind : cols.find? (fun col => hasSub (pyStrLower a) (pyStrLower col)) with
    | some c =>
      have : List.find? ((fun p => hasSub (pyStrLower p.1) (pyStrLower p.2)) ∘ Prod.mk a)
          cols = some c := hfind
      rw [this]
      rfl
    | none =>
      have : List.find? ((fun p => hasSub (pyStrLower p.1) (pyStrLower p.2)) ∘ Prod.mk a)
          cols = none := hfind
      rw [this]
      simpa [find_column] using ih

theorem findSpecialty_eq (page : Int) (tbl : List ((Int × Int) × Str)) :
    findSpecialty page tbl =
      ((tbl.find? (fun e => decide (e.1.1 ≤ page ∧ page ≤ e.1.2))).map Prod.snd).getD
        (str "Non classé") := by
  induction tbl with
  | nil => rfl
  | cons e rest ih =>
    obtain ⟨⟨s, en⟩, sp⟩ := e
    rw [List.find?_cons]
    by_cases h : s ≤ page ∧ page ≤ en
    · simp only [findSpecialty, if_pos h]
      simp [h]
    · simp only [findSpecialty, if_neg h]
      rw [ih]
      simp [h]

/-! ## Claim theorems -/

/-- The lowered-specialty filter of the search, with Python truthiness
(`if specialite:` skips the filter for the empty string), is equivalent to the
plain substring condition, because the empty string is a substring of
everything. -/
theorem specFilter_iff (s t : Str) :
    (s.isEmpty || hasSub (pyStrLower s) t) = true ↔ pyStrLower s <:+: t := by
  cases s with
  | nil => simp [pyStrLower, List.nil_infix]
  | cons a as => simp [hasSub_iff, pyStrLower]

/-- C1: every record returned by `parse_table_to_records` (and hence every
record of an extracted dataset) has a non-empty `acte` and a non-empty
`antibiotique`; a candidate row is in the output exactly when it was built
from a row of the table and both fields are non-empty — rows failing the check
are dropped silently. -/
theorem c1_parse_records_nonempty :
    (∀ (t : RawTable) (specialty : Str),
      (parse_table_to_records t specialty).all
        (fun r => !r.acte.isEmpty && !r.antibiotique.isEmpty) = true) ∧
    (∀ (t : RawTable) (specialty : Str) (r : Antibioprophylaxie),
      r ∈ parse_table_to_records t specialty ↔
        r ∈ t.rows.map (buildRecord t.columns specialty) ∧
          r.acte ≠ [] ∧ r.antibiotique ≠ []) ∧
    (∀ tables : List PagedTable,
      (extract_records tables).all
        (fun r => !r.acte.isEmpty && !r.antibiotique.isEmpty) = true) := by
  refine ⟨fun t specialty => ?_, fun t specialty r => ?_, fun tables => ?_⟩
  · rw [List.all_eq_true]
    intro r hr
    exact (List.mem_filter.1 hr).2
  · rw [parse_table_to_records, List.mem_filter]
    simp [List.isEmpty_iff]
  · rw [List.all_eq_true]
    intro r hr
    obtain ⟨t, _, hrt⟩ := List.mem_flatMap.1 hr
    exact (List.mem_filter.1 hrt).2

/-- The single record used by the concrete search examples of the spec. -/
def hancheRecord : Antibioprophylaxie :=
  { specialite := str "Chirurgie orthopédique"
    acte := str "prothèse de hanche"
    antibiotique := str "céfazoline"
    posologie := str "2g IV"
    alternative_allergie := none
    reinjection := none
    duree := none
    grade := none }

/-- C2: the search returns exactly the records, in dataset order, whose
lowered act contains the lowered query (or conversely), after the optional
substring restriction on the lowered specialty; an empty match set yields the
explicit guidance response, never an error.  Searching "hanche" finds the
"prothèse de hanche" record, and searching "prothese-de-hanche-totale"
against it yields the explicit empty result. -/
theorem c2_search_by_act_spec :
    (∀ (data : List Antibioprophylaxie) (acte : Str) (sp : Option Str),
      (∀ r, r ∈ searchMatches data acte sp ↔
        r ∈ data ∧
          (match sp with
           | none => True
           | some s => pyStrLower s <:+: pyStrLower r.specialite) ∧
          (pyStrLower acte <:+: pyStrLower r.acte ∨
            pyStrLower r.acte <:+: pyStrLower acte)) ∧
      (searchMatches data acte sp).Sublist data ∧
      (rechercher_antibioprophylaxie data acte sp =
          .noResult (searchNoResultMsg acte) ↔ searchMatches data acte sp = []) ∧
      (rechercher_antibioprophylaxie data acte sp =
          .results (searchMatches data acte sp) ↔ searchMatches data acte sp ≠ [])) ∧
    rechercher_antibioprophylaxie [hancheRecord] (str "hanche") none =
      .results [hancheRecord] ∧
    rechercher_antibioprophylaxie [hancheRecord] (str "prothese-de-hanche-totale") none =
      .noResult (searchNoResultMsg (str "prothese-de-hanche-totale")) := by
  refine ⟨fun data acte sp => ⟨fun r => ?_, List.filter_sublist _, ?_, ?_⟩, ?_, ?_⟩
  · rw [searchMatches, List.mem_filter, searchPred.eq_def]
    cases sp with
    | none => simp [hasSub_iff]
    | some s =>
      rw [Bool.and_eq_true, specFilter_iff]
      simp only [Bool.or_eq_true, hasSub_iff]
  · rw [rechercher_antibioprophylaxie]
    by_cases h : searchMatches data acte sp = []
    · simp [h]
    · simp [h, List.isEmpty_iff]
  · rw [rechercher_antibioprophylaxie]
    by_cases h : searchMatches data acte sp = []
    · simp [h]
    · simp [h, List.isEmpty_iff]
  · decide
  · decide

/-- C3: `slugify` has no pre-substitution table for compatibility/ligature
characters: NFD leaves `Œ` intact, lowering turns it into the alphanumeric
`œ`, so the ligature survives into the slug.  `slugify("Œsophage et estomac")`
is `"œsophage-et-estomac"`, not the `"oesophage-et-estomac"` promised by the
claim and by the function's own docstring example. -/
theorem c3_slugify_ligature_bug :
    slugify (str "Œsophage et estomac") = str "œsophage-et-estomac" ∧
    slugify (str "Œsophage et estomac") ≠ str "oesophage-et-estomac" := by
  constructor
  · decide
  · decide

/-- C4: for every integer page number (zero and negative included),
`identify_specialty` returns the category of the first declared interval
whose inclusive bounds contain the page, and the sentinel `"Non classé"`
when no interval contains it; page 46 classifies as `"Ophtalmologie"` and
page 999 as the sentinel. -/
theorem c4_identify_specialty_spec :
    (∀ page : Int, identify_specialty page =
      ((specialty_pages.find? (fun e => decide (e.1.1 ≤ page ∧ page ≤ e.1.2))).map
          Prod.snd).getD (str "Non classé")) ∧
    identify_specialty 46 = str "Ophtalmologie" ∧
    identify_specialty 999 = str "Non classé" ∧
    identify_specialty 0 = str "Non classé" ∧
    identify_specialty (-7) = str "Non classé" :=
  ⟨fun page => findSpecialty_eq page specialty_pages, by decide, by decide, by decide,
    by decide⟩

/-- C7: `find_column` returns the first header cell whose lowered text
contains a lowered alias, aliases tried in declaration order and header cells
in table order (the first matching pair of the alias-major pair list wins);
a role with no matching header cell resolves to `none`, and a resolved cell
is a header cell containing some alias. -/
theorem c7_find_column_spec :
    (∀ cols aliases : List Str,
      find_column cols aliases =
        (List.find? (fun p => hasSub (pyStrLower p.1) (pyStrLower p.2))
            (aliases.product cols)).map Prod.snd) ∧
    (∀ cols aliases : List Str,
      find_column cols aliases = none ↔
        ∀ al ∈ aliases, ∀ col ∈ cols, ¬ pyStrLower al <:+: pyStrLower col) ∧
    (∀ (cols aliases : List Str) (c : Str),
      find_column cols aliases = some c →
        c ∈ cols ∧ ∃ al ∈ aliases, pyStrLower al <:+: pyStrLower c) := by
  refine ⟨fun cols aliases => find_column_eq cols aliases, ?_, ?_⟩
  · intro cols aliases
    rw [find_column_eq, Option.map_eq_none', List.find?_eq_none]
    constructor
    · intro h al hal col hcol hinf
      exact h (al, col) (List.pair_mem_product.2 ⟨hal, hcol⟩) ((hasSub_iff _ _).2 hinf)
    · intro h p hp hs
      exact h p.1 (List.pair_mem_product.1 hp).1 p.2 (List.pair_mem_product.1 hp).2
        ((hasSub_iff _ _).1 hs)
  · intro cols aliases c h
    rw [find_column_eq] at h
    obtain ⟨p, hfind, hsnd⟩ := Option.map_eq_some'.1 h
    have hp := List.find?_some hfind
    have hmem := List.mem_of_find?_eq_some hfind
    obtain ⟨al, col⟩ := p
    cases hsnd
    exact ⟨(List.pair_mem_product.1 hmem).2, al, (List.pair_mem_product.1 hmem).1,
      (hasSub_iff _ _).1 hp⟩

/-- Witness for C7: on the header `["Numéro", "Type de chirurgie"]` the act
role resolves to `"Type de chirurgie"`, which is a header cell containing the
alias. -/
theorem c7_find_column_spec_witness :
    (str "Type de chirurgie") ∈ [str "Numéro", str "Type de chirurgie"] ∧
    ∃ al ∈ acteAliases, pyStrLower al <:+: pyStrLower (str "Type de chirurgie") :=
  c7_find_column_spec.2.2 [str "Numéro", str "Type de chirurgie"] acteAliases
    (str "Type de chirurgie") (by decide)

/-- C8: `slugify` is total (a total function of its input string) and
idempotent on every string of the model, and
`slugify("Chirurgie orthopédique") = "chirurgie-orthopedique"`. -/
theorem c8_slugify_idempotent_total :
    (∀ s : Str, slugify (slugify s) = slugify s) ∧
    slugify (str "Chirurgie orthopédique") = str "chirurgie-orthopedique" :=
  ⟨slugify_idempotent, by decide⟩

/-- A non-default advisory payload embedded in a dataset. -/
def recoEmbedded : RecoGenerales :=
  { timing := { description := str "timing maison", grade := str "GRADE 2" }
    reinjection := { intervalles := [(str "céfazoline", str "2h (2g)")], grade := str "GRADE 1" }
    duree := { description := str "48h", grade := str "GRADE 2" } }

/-- A dataset embedding `recoEmbedded` as its `recommandations_generales`. -/
def datasetWithReco : RfeData :=
  { specialites := [], data := [], recommandations_generales := some recoEmbedded }

/-- C9: `get_recommandations_generales` selects the embedded
`recommandations_generales` payload (or the built-in default), but its
response is the fixed built-in text either way: a dataset embedding a payload
different from the default produces exactly the same response as a dataset
embedding none, contradicting the claim that responses reflect the embedded
payload. -/
theorem c9_reco_generales_fixed :
    recoEmbedded ≠ defaultRecoGenerales ∧
    get_recommandations_generales datasetWithReco = recommandationsFixedText ∧
    get_recommandations_generales emptyRfeData = recommandationsFixedText ∧
    get_recommandations_generales datasetWithReco =
      get_recommandations_generales emptyRfeData :=
  ⟨by decide, rfl, rfl, rfl⟩

/-- C10: with an empty act (the default when the tool call omits the `acte`
argument) and no specialty filter, every record matches — the empty string is
a substring of every lowered act — so the no-result response occurs exactly
when the dataset itself is empty. -/
theorem c10_empty_act_matches_all :
    ∀ data : List Antibioprophylaxie,
      searchMatches data (str "") none = data ∧
      (rechercher_antibioprophylaxie data (str "") none =
          .noResult (searchNoResultMsg (str "")) ↔ data = []) ∧
      call_tool_rechercher data none none =
        rechercher_antibioprophylaxie data (str "") none := by
  intro data
  have hall : searchMatches data (str "") none = data :=
    List.filter_eq_self.mpr (fun r _ => by
      simp [searchPred, pyStrLower, str, hasSub_nil])
  refine ⟨hall, ?_, rfl⟩
  rw [rechercher_antibioprophylaxie, hall]
  cases data with
  | nil => simp
  | cons r t => simp

/-- C5 counterexample: a corrupt (existing but unparsable) persisted file is
not recovered to the empty dataset — `json.load` raises, modelled as an
`Except.error`. -/
theorem c5_load_corrupt_raises :
    load_rfe_data FileState.corrupt = Except.error LoadError.jsonDecodeError ∧
    load_rfe_data FileState.corrupt ≠ Except.ok emptyRfeData :=
  ⟨rfl, fun h => Except.noConfusion h⟩

/-- C5 (amended): a *missing* persisted file is recovered to the well-defined
empty dataset, and every query against the empty dataset degrades gracefully:
the search and the act listing return their explicit no-result guidance, the
specialty listing returns the bare header, and the general advisories return
the fixed text; a corrupt file, however, raises a JSON decode error. -/
theorem c5_load_missing_recovers :
    load_rfe_data FileState.missing = Except.ok emptyRfeData ∧
    (∀ (acte : Str) (sp : Option Str),
      rechercher_antibioprophylaxie emptyRfeData.data acte sp =
        .noResult (searchNoResultMsg acte)) ∧
    (∀ s : Str, lister_actes_specialite emptyRfeData.data s =
      .noResult (actesNoResultMsg s)) ∧
    lister_specialites emptyRfeData =
      str "## Spécialités couvertes par les RFE Antibioprophylaxie\n\n" ∧
    get_recommandations_generales emptyRfeData = recommandationsFixedText :=
  ⟨rfl, fun acte sp => rfl, fun s => rfl, by decide, rfl⟩

/-- Concrete categories for the C6 witness. -/
def wCats : List Str := [str "ORL", str "Orthopédie"]

/-- Concrete record list for the C6 witness: one record, of the second
category; the first category has no record. -/
def wData : List Antibioprophylaxie :=
  [{ specialite := str "Orthopédie"
     acte := str "amygdalectomie"
     antibiotique := str "amoxicilline"
     posologie := str "1g"
     alternative_allergie := none
     reinjection := none
     duree := none
     grade := none }]

/-- C6: when every record's category appears in the (duplicate-free, as the
dataset metadata is a sorted set) metadata category list, the projection
produces exactly one view per category — with the records of that category,
their count as `total` (in particular an empty list and `total = 0` for a
category with no records), and the category slug — the `specialites.json`
counts agree, and flattening all views reproduces the record multiset exactly
once per record. -/
theorem c6_specialite_partition :
    ∀ (cats : List Str) (data : List Antibioprophylaxie),
      (∀ r ∈ data, r.specialite ∈ cats) → cats.Nodup →
      ((generate_specialite_endpoints cats data).length = cats.length ∧
       (∀ v ∈ generate_specialite_endpoints cats data,
          v.total = v.recommandations.length ∧
          v.recommandations = data.filter (fun rec => rec.specialite == v.nom) ∧
          v.slug = slugify v.nom) ∧
       (∀ c ∈ cats, ∃ v ∈ generate_specialite_endpoints cats data, v.nom = c) ∧
       (∀ e ∈ generate_specialites_endpoint cats data,
          e.count = (data.filter (fun rec => rec.specialite == e.nom)).length) ∧
       ((generate_specialite_endpoints cats data).flatMap
          (fun v => v.recommandations)).Perm data) := by
  intro cats data hcov hnd
  refine ⟨List.length_map _ _, ?_, ?_, ?_, ?_⟩
  · intro v hv
    obtain ⟨c, _, rfl⟩ := List.mem_map.1 hv
    exact ⟨rfl, rfl, rfl⟩
  · intro c hc
    exact ⟨_, List.mem_map_of_mem _ hc, rfl⟩
  · intro e he
    obtain ⟨c, _, rfl⟩ := List.mem_map.1 he
    rfl
  · rw [generate_specialite_endpoints, List.flatMap_map]
    exact flatMap_filter_perm (fun r => r.specialite) cats data hcov hnd

/-- Witness for C6 at `wCats`/`wData`: the flattened views reproduce the
records, there is one view per category, and the record-free category "ORL"
still yields a view with an empty list and `total = 0`. -/
theorem c6_specialite_partition_witness :
    ((generate_specialite_endpoints wCats wData).flatMap
        (fun v => v.recommandations)).Perm wData ∧
    (generate_specialite_endpoints wCats wData).length = wCats.length ∧
    (∃ v ∈ generate_specialite_endpoints wCats wData,
      v.nom = str "ORL" ∧ v.recommandations = [] ∧ v.total = 0) :=
  ⟨(c6_specialite_partition wCats wData (by decide) (by decide)).2.2.2.2,
   (c6_specialite_partition wCats wData (by decide) (by decide)).1,
   by decide⟩

/-- Witness for C1 at a concrete table. -/
theorem c1_parse_records_nonempty_witness :
    (parse_table_to_records
        { columns := [str "Acte", str "Antibiotique"],
          rows := [[str "appendicectomie", str "céfoxitine"], [str "", str "x"]] }
        (str "Chirurgie digestive")).all
      (fun r => !r.acte.isEmpty && !r.antibiotique.isEmpty) = true :=
  c1_parse_records_nonempty.1 _ _

/-- Witness for C2 at the concrete hanche record. -/
theorem c2_search_by_act_spec_witness :
    (searchMatches [hancheRecord] (str "hanche") none).Sublist [hancheRecord] :=
  (c2_search_by_act_spec.1 [hancheRecord] (str "hanche") none).2.1

/-- Witness for C4 at page 33. -/
theorem c4_identify_specialty_spec_witness :
    identify_specialty 33 =
      ((specialty_pages.find? (fun e => decide (e.1.1 ≤ 33 ∧ (33 : Int) ≤ e.1.2))).map
          Prod.snd).getD (str "Non classé") :=
  c4_identify_specialty_spec.1 33

/-- Witness for C5 (amended) at a concrete query. -/
theorem c5_load_missing_recovers_witness :
    rechercher_antibioprophylaxie emptyRfeData.data (str "hanche") none =
      .noResult (searchNoResultMsg (str "hanche")) :=
  c5_load_missing_recovers.2.1 (str "hanche") none

/-- Witness for C8 at a concrete string. -/
theorem c8_slugify_idempotent_total_witness :
    slugify (slugify (str "Chirurgie cardiaque")) = slugify (str "Chirurgie cardiaque") :=
  c8_slugify_idempotent_total.1 (str "Chirurgie cardiaque")

/-- Witness for C10 at the concrete one-record dataset. -/
theorem c10_empty_act_matches_all_witness :
    searchMatches wData (str "") none = wData :=
  (c10_empty_act_matches_all wData).1
